import Mathlib

/- Verification of the vocode streaming conversation orchestrator
   (vocode/streaming/streaming_conversation.py and
   vocode/streaming/output_device/livekit_output_device.py).

   The Python source is embedded shallowly: pure fragments become Lean
   functions, stateful fragments become explicit state passing, wall-clock
   times become rationals, and Python exceptions become Except / explicit
   cancellation parameters.  Strings are modelled over their character
   lists; the regular expressions used by the backchannel classifier are
   simple enough to be compiled by hand into decidable matchers. -/

namespace VocodeSpec

/-! ## Python string helpers

These are written as structural recursions over character lists so that every
definition evaluates inside the kernel. -/

/-- Split a character list on whitespace runs, accumulating the current word
in reverse. -/
def splitWhitespaceAux : List Char → List Char → List String
  | [], acc => if acc.isEmpty then [] else [String.mk acc.reverse]
  | c :: cs, acc =>
    if c.isWhitespace then
      if acc.isEmpty then splitWhitespaceAux cs []
      else String.mk acc.reverse :: splitWhitespaceAux cs []
    else splitWhitespaceAux cs (c :: acc)

/-- Python `s.split()` with no separator (as used after strip at line 213):
the whitespace-delimited words of s. -/
def pyWords (s : String) : List String :=
  splitWhitespaceAux s.data []

/-- Python `s.strip()`: drop leading and trailing whitespace. -/
def pyStrip (s : String) : String :=
  String.mk (((s.data.dropWhile Char.isWhitespace).reverse.dropWhile Char.isWhitespace).reverse)

/-- Python `s.lower()` over the ASCII fragment. -/
def pyLower (s : String) : String :=
  String.mk (s.data.map Char.toLower)

/-- Python `re.sub("[^\w\s]", "", s).strip().lower()` (line 229 of
streaming_conversation.py), restricted to the ASCII fragment: keep
alphanumerics, underscore and whitespace, then strip and lowercase. -/
def clean_text (s : String) : String :=
  pyLower (pyStrip (String.mk (s.data.filter (fun c => c.isAlphanum || c == '_' || c.isWhitespace))))

/-! ## Backchannel patterns (BACKCHANNEL_PATTERNS, lines 110-132)

The regexes are compiled by hand: `x+` repetition of a single character,
an optional dash, and literal words. -/

/-- Matches `c+`: a nonempty run of the character `c`. -/
def repPlus (c : Char) (l : List Char) : Bool :=
  !l.isEmpty && l.all (fun x => x == c)

/-- Matches `ab+`: the character `a` followed by a nonempty run of `b`
(covers the patterns oh+, ah+, um+, uh+). -/
def matchCharPlus (a b : Char) : List Char → Bool
  | x :: xs => x == a && repPlus b xs
  | [] => false

/-- Matches the regex `m+-?hm+`.  Because neither a dash nor the letter h
is the letter m, the greedy decomposition is equivalent to backtracking. -/
def matchMhm (l : List Char) : Bool :=
  let ms := l.takeWhile (fun c => c == 'm')
  let rest := l.dropWhile (fun c => c == 'm')
  !ms.isEmpty &&
    match rest with
    | '-' :: 'h' :: tail => repPlus 'm' tail
    | 'h' :: tail => repPlus 'm' tail
    | _ => false

/-- Matches the regex `yeah+`. -/
def matchYeah : List Char → Bool
  | 'y' :: 'e' :: 'a' :: tail => repPlus 'h' tail
  | _ => false

/-- Python `any(re.fullmatch(regex, cleaned) for regex in BACKCHANNEL_PATTERNS)`
(line 230), with the pattern list of lines 110-132. -/
def matches_backchannel_pattern (s : String) : Bool :=
  matchMhm s.data || repPlus 'm' s.data || matchCharPlus 'o' 'h' s.data ||
  matchCharPlus 'a' 'h' s.data || matchCharPlus 'u' 'm' s.data ||
  matchCharPlus 'u' 'h' s.data ||
  s == "yes" || s == "sure" || s == "quite" || s == "right" || s == "really" ||
  s == "good heavens" || s == "i see" || s == "of course" || s == "oh dear" ||
  s == "oh god" || s == "thats nice" || s == "thats not bad" ||
  s == "thats right" || matchYeah s.data || s == "makes sense"

/-- Line 133 of streaming_conversation.py. -/
def LOW_INTERRUPT_SENSITIVITY_BACKCHANNEL_UTTERANCE_LENGTH_THRESHOLD : ℕ := 3

/-- Line 134 of streaming_conversation.py. -/
def LOWEST_INTERRUPT_SENSITIVITY_BACKCHANNEL_UTTERANCE_LENGTH_THRESHOLD : ℕ := 50

/-- TranscriptionsWorker.is_transcription_backchannel (lines 212-230).
`interrupt_sensitivity` is the agent configuration string, `simulate_interrupt`
the endpointing configuration flag read in the constructor (line 195). -/
def is_transcription_backchannel (interrupt_sensitivity : String)
    (simulate_interrupt : Bool) (message : String) : Bool :=
  let num_words := (pyWords message).length
  if interrupt_sensitivity == "high" && decide (1 ≤ num_words) then false
  else
    let threshold :=
      if simulate_interrupt then
        LOWEST_INTERRUPT_SENSITIVITY_BACKCHANNEL_UTTERANCE_LENGTH_THRESHOLD
      else LOW_INTERRUPT_SENSITIVITY_BACKCHANNEL_UTTERANCE_LENGTH_THRESHOLD
  if decide (num_words ≤ threshold) then true
  else matches_backchannel_pattern (clean_text message)

/-- The word-count threshold exactly as claim C4 words it: 3 for normal and
low sensitivity, 50 while simulate_interrupt is active, and 0 at high
sensitivity. -/
def claimed_threshold (interrupt_sensitivity : String) (simulate_interrupt : Bool) : ℕ :=
  if interrupt_sensitivity == "high" then 0
  else if simulate_interrupt then 50 else 3

/-- The classifier exactly as claim C4 words it: word count at most the
sensitivity-dependent threshold OR the normalized text matches a fixed
filler-word pattern. -/
def claimed_is_transcription_backchannel (interrupt_sensitivity : String)
    (simulate_interrupt : Bool) (message : String) : Bool :=
  decide ((pyWords message).length ≤ claimed_threshold interrupt_sensitivity simulate_interrupt) ||
    matches_backchannel_pattern (clean_text message)

/-! ## Transcription dedup (TranscriptionsWorker.process, lines 270-282) -/

/-- The two dedup fields of TranscriptionsWorker (lines 198-199). -/
structure DedupState where
  last_transcription : Option String
  last_transcription_time : Option ℚ
deriving DecidableEq

/-- The dedup condition of lines 273-277.  Python compares
`self.last_transcription == transcription.message`, requires
`self.last_transcription_time` to be truthy (it is either None or a positive
wall-clock stamp), and checks that under half a second elapsed. -/
def dedup_should_drop (st : DedupState) (message : String) (current_time : ℚ) : Bool :=
  match st.last_transcription, st.last_transcription_time with
  | some prev, some prev_time => prev == message && decide (current_time - prev_time < 1/2)
  | _, _ => false

/-- One dedup step: a dropped fragment returns early at line 279, BEFORE the
assignments of lines 281-282, so the stored fragment and stamp are refreshed
only by retained fragments. -/
def dedup_step (st : DedupState) (message : String) (current_time : ℚ) :
    DedupState × Bool :=
  if dedup_should_drop st message current_time then (st, true)
  else ({ last_transcription := some message, last_transcription_time := some current_time },
        false)

/-- Run the dedup gate over a timed fragment sequence, returning the retained
fragments in order. -/
def dedup_run (st : DedupState) : List (String × ℚ) → List (String × ℚ)
  | [] => []
  | f :: fs =>
    let step := dedup_step st f.1 f.2
    if step.2 then dedup_run step.1 fs else f :: dedup_run step.1 fs

/-- The dedup gate exactly as claim C9 words it: a fragment is dropped when it
is identical to the immediately preceding fragment (dropped or not) and under
half a second elapsed since that fragment. -/
def claimed_dedup_run (prev : Option (String × ℚ)) : List (String × ℚ) → List (String × ℚ)
  | [] => []
  | f :: fs =>
    let dropped : Bool :=
      match prev with
      | some p => p.1 == f.1 && decide (f.2 - p.2 < 1/2)
      | none => false
    if dropped then claimed_dedup_run (some f) fs else f :: claimed_dedup_run (some f) fs

/-! ## Interruptible events and the broadcast (lines 143-171 and 1194-1217)

The InterruptibleEvent class itself lives in vocode/streaming/utils/worker.py,
which is not among the given sources; its state machine is modelled from the
spec (section 3): state in pending / consumed / interrupted, terminal once
consumed or interrupted, and an is_interruptible flag. -/

inductive EvState
  | pending
  | consumed
  | interrupted
deriving DecidableEq

/-- Modelled from the spec: the InterruptibleEvent envelope of
vocode/streaming/utils/worker.py (not among the given sources), reduced to the
fields the broadcast reads: the is_interruptible flag and the
pending/consumed/interrupted state. -/
structure InterruptibleEvent where
  is_interruptible : Bool
  state : EvState
deriving DecidableEq

/-- Modelled from the spec: InterruptibleEvent.is_interrupted of worker.py;
per spec section 3 the state is interrupted exactly after a successful
interrupt transition. -/
def is_interrupted_event (e : InterruptibleEvent) : Bool :=
  e.state == EvState.interrupted

/-- Modelled from the spec: InterruptibleEvent.interrupt of worker.py; per
spec section 4.5 a still-pending, not-yet-consumed interruptible event is
transitioned to interrupted and counted, anything else is left unchanged. -/
def interrupt_event (e : InterruptibleEvent) : InterruptibleEvent × Bool :=
  if e.is_interruptible && e.state == EvState.pending then
    ({ e with state := EvState.interrupted }, true)
  else (e, false)

/-- An event the broadcast counts: interruptible, still pending. -/
def pending_interruptible (e : InterruptibleEvent) : Bool :=
  e.is_interruptible && e.state == EvState.pending

/-- The drain loop of broadcast_interrupt (lines 1201-1211): pop every
registered event; skip those already interrupted; attempt to interrupt the
rest and count the successes.  Returns the post-transition events and the
count. -/
def broadcast_drain : List InterruptibleEvent → List InterruptibleEvent × ℕ
  | [] => ([], 0)
  | e :: rest =>
    let step : InterruptibleEvent × Bool :=
      if is_interrupted_event e then (e, false)
      else interrupt_event e
    let tail := broadcast_drain rest
    (step.1 :: tail.1, (if step.2 then 1 else 0) + tail.2)

/-- StreamingConversation.broadcast_interrupt (lines 1194-1217): drain the
shared registry under the interrupt lock and report whether any event was
actually interrupted (`num_interrupts > 0`).  The cooperative task
cancellations and the output-device interrupt of lines 1212-1216 carry no
state in this model. -/
def broadcast_interrupt (registry : List InterruptibleEvent) :
    List InterruptibleEvent × Bool :=
  let drained := broadcast_drain registry
  (drained.1, decide (0 < drained.2))

/-- QueueingInterruptibleEventFactory.create_interruptible_event
(lines 147-157): build the event and register it into the shared FIFO
registry (conversation.interruptible_events.put_nowait). -/
def create_interruptible_event (registry : List InterruptibleEvent)
    (is_interruptible : Bool) : List InterruptibleEvent × InterruptibleEvent :=
  let e : InterruptibleEvent := { is_interruptible := is_interruptible, state := EvState.pending }
  (registry ++ [e], e)

/-! ## Transcript messages and the bot-speaking heuristics (lines 232-268) -/

/-- A transcription fragment (vocode/streaming/models/transcriber.py), reduced
to the fields TranscriptionsWorker.process reads and writes. -/
structure Transcription where
  message : String
  is_final : Bool
  is_interrupt : Bool
  bot_was_in_medias_res : Bool
deriving DecidableEq

/-- A transcript Message event log (vocode/streaming/models/transcript.py is
not among the given sources; the fields are the ones the heuristics of lines
242-268 read, as listed in spec section 3). -/
structure TranscriptMessage where
  text : String
  sender_is_bot : Bool
  is_final : Bool
  is_backchannel : Bool
  is_end_of_turn : Bool
deriving DecidableEq

/-- TranscriptionsWorker.is_bot_in_medias_res (lines 242-250); the transcript
is kept in chronological order, so the most recent message is the head of the
reversed list. -/
def is_bot_in_medias_res (transcript : List TranscriptMessage) : Bool :=
  match transcript.reverse.head? with
  | none => false
  | some m =>
    !m.is_backchannel && m.sender_is_bot && !m.is_final && decide (pyStrip m.text ≠ "")

/-- TranscriptionsWorker.is_bot_still_speaking (lines 252-268). -/
def is_bot_still_speaking (transcript : List TranscriptMessage) : Bool :=
  let rev := transcript.reverse
  match rev.head? with
  | none => false
  | some last_message =>
    let is_first_bot_message : Bool :=
      match (rev.drop 1).head? with
      | none => true
      | some second => !second.sender_is_bot
    !last_message.is_backchannel && last_message.sender_is_bot &&
      (!last_message.is_final || !last_message.is_end_of_turn) &&
      !(is_first_bot_message && decide (pyStrip last_message.text = ""))

/-! ## The transcription stage (TranscriptionsWorker.process, lines 270-373) -/

/-- The state read and written by TranscriptionsWorker.process: the worker
fields of lines 187-199 plus the conversation fields it touches.  `forwarded`
logs the events handed to the downstream consumer (line 373) and
`broadcast_count` the calls to broadcast_interrupt (line 329). -/
structure ConvState where
  last_transcription : Option String
  last_transcription_time : Option ℚ
  has_associated_ignored_utterance : Bool
  has_associated_unignored_utterance : Bool
  human_backchannels_buffer : List Transcription
  ignore_next_message : Bool
  simulate_interrupt : Bool
  interrupt_sensitivity : String
  is_human_speaking : Bool
  current_transcription_is_interrupt : Bool
  initial_message_tracker_set : Bool
  transcript : List TranscriptMessage
  interruptible_events : List InterruptibleEvent
  forwarded : List Transcription
  broadcast_count : ℕ
deriving DecidableEq

/-- TranscriptionsWorker.should_ignore_utterance (lines 201-210). -/
def should_ignore_utterance (st : ConvState) (t : Transcription) : Bool :=
  if st.has_associated_unignored_utterance && !st.simulate_interrupt then false
  else
    let bot_still_speaking := is_bot_still_speaking st.transcript
    if st.has_associated_ignored_utterance || bot_still_speaking then
      is_transcription_backchannel st.interrupt_sensitivity st.simulate_interrupt t.message
    else false

/-- Modelled from the spec: Transcript.add_human_message of
vocode/streaming/models/transcript.py (not among the given sources) appends a
final human turn flagged as backchannel (spec sections 3 and 4.3). -/
def add_human_message (transcript : List TranscriptMessage) (text : String) :
    List TranscriptMessage :=
  transcript ++ [{ text := text, sender_is_bot := false, is_final := true,
                   is_backchannel := true, is_end_of_turn := true }]

/-- The conversation-level effect of broadcast_interrupt: the registry is
fully drained and the outcome flag returned (lines 1199-1217). -/
def conv_broadcast_interrupt (st : ConvState) : ConvState × Bool :=
  let result := broadcast_interrupt st.interruptible_events
  ({ st with interruptible_events := [], broadcast_count := st.broadcast_count + 1 },
   result.2)

/-- TranscriptionsWorker.process (lines 270-373), as a function of the prior
state, the incoming fragment and the current wall-clock time.  Each early
`return` of the Python becomes a branch result; external calls with no state
in this model (mark_last_action_timestamp, speed_manager.update,
warmup_synthesizer, the deepgram endpointing switch, logging) are omitted. -/
def transcriptions_process (st : ConvState) (t : Transcription) (current_time : ℚ) :
    ConvState :=
  if dedup_should_drop
      { last_transcription := st.last_transcription,
        last_transcription_time := st.last_transcription_time }
      t.message current_time then
    st
  else
  let st := { st with last_transcription := some t.message,
                      last_transcription_time := some current_time }
  if pyStrip t.message == "" then st
  else
  let initial_message_ongoing := !st.initial_message_tracker_set
  if initial_message_ongoing || should_ignore_utterance st t then
    let st := { st with has_associated_ignored_utterance := !t.is_final }
    if t.is_final then
      { st with human_backchannels_buffer := st.human_backchannels_buffer ++ [t] }
    else st
  else
  if st.ignore_next_message && t.is_final then
    { st with has_associated_ignored_utterance := false, ignore_next_message := false }
  else
  let bot_was_in_medias_res :=
    is_bot_in_medias_res st.transcript || is_bot_still_speaking st.transcript
  let st :=
    if st.is_human_speaking then
      if bot_was_in_medias_res then
        let r := conv_broadcast_interrupt st
        { r.1 with current_transcription_is_interrupt := r.2,
                   has_associated_unignored_utterance := !t.is_final }
      else { st with current_transcription_is_interrupt := false }
    else st
  let t := { t with is_interrupt := st.current_transcription_is_interrupt }
  let st := { st with is_human_speaking := !t.is_final }
  if t.is_final then
    let st := { st with has_associated_ignored_utterance := false,
                        has_associated_unignored_utterance := false }
    let st := { st with
      transcript := st.human_backchannels_buffer.foldl
        (fun tr (b : Transcription) => add_human_message tr b.message) st.transcript,
      human_backchannels_buffer := [] }
    let t :=
      if t.is_interrupt then { t with bot_was_in_medias_res := bot_was_in_medias_res }
      else t
    let factory_result := create_interruptible_event st.interruptible_events true
    { st with interruptible_events := factory_result.1, forwarded := st.forwarded ++ [t] }
  else st

/-! ## Agent-response completion trackers (C2, lines 375-425 and 580-643) -/

/-- An InterruptibleAgentResponseEvent reduced to the fields the tracker
claims read: the one-shot completion tracker, the interruptible flag and the
event state.  The class itself lives in worker.py, outside the given
sources. -/
structure AgentResponseEvent where
  tracker_is_set : Bool
  is_interruptible : Bool
  state : EvState
deriving DecidableEq

/-- Modelled from the spec: InterruptibleAgentResponseEvent.interrupt and the
cooperative cancellation protocol of vocode/streaming/utils/worker.py are not
among the given sources.  Per spec sections 3 and 4.2, cancelling an
in-flight agent-response event goes through interrupting it, which settles
its completion tracker before the processing task is cancelled. -/
def interrupt_agent_response_event (e : AgentResponseEvent) : AgentResponseEvent :=
  { e with tracker_is_set := true,
           state := if e.is_interruptible && e.state == EvState.pending then
               EvState.interrupted
             else e.state }

/-- FillerAudioWorker.process (lines 406-425): on the completed path the
tracker is set at line 423; a CancelledError raised at one of the awaits is
swallowed at lines 424-425 without touching the tracker. -/
def filler_audio_process (item : AgentResponseEvent) (cancelled_during_await : Bool) :
    AgentResponseEvent :=
  if cancelled_during_await then item
  else { item with tracker_is_set := true }

/-- SynthesisResultsWorker.process (lines 593-643): the end-of-turn branch
sets the tracker at line 606 and returns; the message branch sets it at line
636 after send_speech_to_output; a CancelledError is swallowed at lines
642-643 without touching the tracker. -/
def synthesis_results_process (item : AgentResponseEvent) (is_end_of_turn : Bool)
    (cancelled_during_await : Bool) : AgentResponseEvent :=
  if cancelled_during_await then item
  else if is_end_of_turn then { item with tracker_is_set := true }
  else { item with tracker_is_set := true }

/-! ## Audio chunks and the LiveKit output loop (C3) -/

/-- ChunkState of vocode/streaming/output_device/audio_chunk.py (not among
the given sources; the QUEUED / PLAYED / INTERRUPTED states are named in spec
section 3 and the latter two are used by livekit_output_device.py). -/
inductive ChunkState
  | queued
  | played
  | interrupted
deriving DecidableEq

/-- An AudioChunk with callback-invocation counters standing in for the
on_play / on_interrupt callbacks attached at lines 1330-1335. -/
structure AudioChunk where
  state : ChunkState
  on_play_count : ℕ
  on_interrupt_count : ℕ
deriving DecidableEq

/-- The InterruptibleEvent wrapping an AudioChunk in the output-device queue
(line 1338-1344: payload, is_interruptible, interruption_event). -/
structure OutputItem where
  chunk : AudioChunk
  is_interruptible : Bool
  interruption_event_set : Bool
deriving DecidableEq

/-- Modelled from the spec: InterruptibleEvent.is_interrupted of worker.py for
a queued output item; it observes the shared cancellation token, guarded by
the is_interruptible flag (spec sections 3 and 4.5). -/
def output_item_is_interrupted (item : OutputItem) : Bool :=
  item.is_interruptible && item.interruption_event_set

/-- One iteration of LiveKitOutputDevice._run_loop (lines 29-54) on a dequeued
item: an interrupted item has its on_interrupt callback fired and its state
set to INTERRUPTED and is never played; otherwise the chunk is played, the
on_play callback fired, the state set to PLAYED and the wrapping event made
non-interruptible. -/
def livekit_handle_item (item : OutputItem) : OutputItem :=
  if output_item_is_interrupted item then
    { item with chunk := { item.chunk with
        on_interrupt_count := item.chunk.on_interrupt_count + 1,
        state := ChunkState.interrupted } }
  else
    { item with
      chunk := { item.chunk with
        on_play_count := item.chunk.on_play_count + 1,
        state := ChunkState.played },
      is_interruptible := false }

/-- The LiveKit run loop over the FIFO queue contents: each dequeued item is
handled exactly once. -/
def livekit_run_loop (items : List OutputItem) : List OutputItem :=
  items.map livekit_handle_item

/-! ## send_speech_to_output (C5 and C6, lines 1255-1379) -/

/-- The await points of send_speech_to_output at which a CancelledError or
another exception can leave the function: while iterating the chunk generator
(lines 1318-1348) and while waiting for the last dispatched chunk to be
processed (lines 1352-1353). -/
inductive CancelPoint
  | duringChunkIter
  | duringLastWait
deriving DecidableEq

/-- The inputs of one send_speech_to_output call.  The synthesis result is a
finite chunk sequence of which only the count matters plus the
get_message_up_to text accessor; stop_at_send models stop_event.is_set() as
observed at the top of iteration i (line 1321); num_played is the number of
dispatched chunks the output device ends up playing (the device is a single
ordered consumer, so the played chunks form a prefix of the dispatched ones
and the rest end interrupted). -/
structure SpeechParams where
  message : String
  num_chunks : ℕ
  seconds_per_chunk : ℚ
  get_message_up_to : Option ℚ → String
  stop_at_send : ℕ → Bool
  num_played : ℕ

/-- The number of chunks dispatched by the loop of lines 1318-1348: the loop
breaks at the first iteration that observes the stop event set. -/
def sent_count (p : SpeechParams) : ℕ :=
  ((List.range p.num_chunks).takeWhile (fun i => !p.stop_at_send i)).length

/-- The on_play callback of lines 1274-1299, iterated over the played chunks:
each play adds seconds_per_chunk to seconds_spoken and rewrites the transcript
message text to the prefix get_message_up_to(seconds_spoken). -/
def run_on_plays (p : SpeechParams) : ℕ → ℚ × String → ℚ × String
  | 0, acc => acc
  | k + 1, acc =>
    let seconds := acc.1 + p.seconds_per_chunk
    run_on_plays p k (seconds, p.get_message_up_to (some seconds))

/-- The values send_speech_to_output computes on its normal exit
(lines 1350-1379). -/
structure SpeechResult where
  message_sent : String
  cut_off : Bool
  transcript_text : String
  transcript_is_final : Bool
deriving DecidableEq

/-- The transcriber mute state around one call: muted right after the entry
mute of lines 1309-1311 and at the exit of the call. -/
structure MuteTrace where
  muted_after_entry : Bool
  muted_at_exit : Bool
deriving DecidableEq

/-- The normal-exit computation of send_speech_to_output (lines 1315-1379):
cut_off is interrupted_before_all_chunks_sent (line 1323) or some dispatched
chunk ends INTERRUPTED (lines 1355-1365); a not-cut-off transcript message is
set to the full text get_message_up_to(None) (lines 1366-1369); is_final is
the negation of cut_off (line 1375); message_sent is the transcript text when
cut off, otherwise the message argument (line 1376). -/
def send_speech_result (p : SpeechParams) (transcript_present : Bool)
    (init_text : String) : SpeechResult :=
  let sent := sent_count p
  let interrupted_before_all_chunks_sent := decide (sent < p.num_chunks)
  let play_result := run_on_plays p p.num_played (0, init_text)
  let some_chunk_interrupted := decide (p.num_played < sent)
  let cut_off := interrupted_before_all_chunks_sent || some_chunk_interrupted
  let text_after := if transcript_present && !cut_off then p.get_message_up_to none
    else play_result.2
  { message_sent := if transcript_present && cut_off then text_after else p.message,
    cut_off := cut_off,
    transcript_text := text_after,
    transcript_is_final := !cut_off }

/-- send_speech_to_output (lines 1255-1379) with its transcriber mute
behaviour.  The transcriber is muted at entry when mute_during_speech is
configured (lines 1309-1311).  There is no try/finally in the function: when
a CancelledError or exception is raised at an await point between the mute
and the unmute (cancel = some point), the function is left without reaching
the unmute of lines 1371-1373, so the mute state is unchanged at exit.  On
the normal path the unmute runs and the results of lines 1350-1379 are
returned. -/
def send_speech_to_output (p : SpeechParams) (transcript_present : Bool)
    (init_text : String) (mute_during_speech : Bool) (cancel : Option CancelPoint) :
    MuteTrace × Except Unit SpeechResult :=
  let muted := mute_during_speech
  match cancel with
  | some _ =>
    ({ muted_after_entry := muted, muted_at_exit := muted }, Except.error ())
  | none =>
    let muted_after_unmute := if mute_during_speech then false else muted
    ({ muted_after_entry := muted, muted_at_exit := muted_after_unmute },
     Except.ok (send_speech_result p transcript_present init_text))

/-! ## The filler-audio wait (C7, lines 391-404) -/

/-- The Python None value, which is falsy. -/
inductive PyNone
  | mk
deriving DecidableEq

/-- A Python threading.Event as the filler_audio_started_event. -/
structure ThreadingEvent where
  flag : Bool
deriving DecidableEq

/-- Python threading.Event.set(): sets the internal flag and returns None. -/
def threading_event_set (_e : ThreadingEvent) : ThreadingEvent × PyNone :=
  ({ flag := true }, PyNone.mk)

/-- Python truthiness of None. -/
def py_truthy_none (_v : PyNone) : Bool := false

/-- What FillerAudioWorker.wait_for_filler_audio_to_finish does with the
tracker of the current filler event. -/
inductive FillerWaitOutcome
  | returned_without_waiting
  | awaited_tracker
deriving DecidableEq

/-- FillerAudioWorker.wait_for_filler_audio_to_finish exactly as written
(lines 391-404).  Line 392 reads
`if self.filler_audio_started_event is None or not self.filler_audio_started_event.set():`
so when the event exists it CALLS set() - mutating the event - and negates its
None return value, which is always truthy; the early debug return of lines
393-396 is therefore always taken.  Returns the possibly mutated event and
whether the agent_response_tracker was awaited (line 401). -/
def wait_for_filler_audio_to_finish (filler_audio_started_event : Option ThreadingEvent)
    (has_interruptible_agent_response_event : Bool) :
    Option ThreadingEvent × FillerWaitOutcome :=
  match filler_audio_started_event with
  | none => (none, FillerWaitOutcome.returned_without_waiting)
  | some e =>
    let call := threading_event_set e
    if !py_truthy_none call.2 then (some call.1, FillerWaitOutcome.returned_without_waiting)
    else if has_interruptible_agent_response_event then
      (some call.1, FillerWaitOutcome.awaited_tracker)
    else (some call.1, FillerWaitOutcome.returned_without_waiting)

/-- wait_for_filler_audio_to_finish as the claim, the spec and the class
docstring of lines 376-380 describe it: skip the wait only when no filler
chunk was sent (the started event is absent or unset), otherwise await the
tracker of the current interruptible filler event. -/
def wait_for_filler_audio_to_finish_intended
    (filler_audio_started_event : Option ThreadingEvent)
    (has_interruptible_agent_response_event : Bool) :
    Option ThreadingEvent × FillerWaitOutcome :=
  match filler_audio_started_event with
  | none => (none, FillerWaitOutcome.returned_without_waiting)
  | some e =>
    if !e.flag then (some e, FillerWaitOutcome.returned_without_waiting)
    else if has_interruptible_agent_response_event then
      (some e, FillerWaitOutcome.awaited_tracker)
    else (some e, FillerWaitOutcome.returned_without_waiting)

/-! ## The IVR state machine (C8, lines 645-842) -/

/-- An IVR DAG edge (IvrLinkConfig): the expected DTMF digit or command text
and the identifier of the target node. -/
structure IvrLink where
  message : String
  next : String
deriving DecidableEq

/-- The IVR DAG nodes the DTMF claims exercise: a terminal node
(current_node.is_final, line 725) and a message node with DTMF link type
(lines 740-761). -/
inductive IvrNode
  | terminal
  | messageDtmf (message : String) (links : List IvrLink)
deriving DecidableEq

/-- The observable outcome of running the IVR machine on a finite digit
input: finished (the _finished_event of line 794 is set), waiting at a node
for further input, a fatal abort (the raise of line 760, or a missing node
id), or still running when the step budget runs out. -/
inductive IvrOutcome
  | finished
  | waitingAt (node_id : String)
  | fatalError (node_id : String)
  | running (node_id : String)
deriving DecidableEq

/-- The dag.nodes dictionary lookup of line 717. -/
def dag_lookup (nodes : List (String × IvrNode)) (node_id : String) : Option IvrNode :=
  (nodes.find? (fun p => p.1 == node_id)).map (fun p => p.2)

/-- The inner match of IvrWorker.wait_for_dtmf (lines 825-829): the first
available command equal to the digit up to lowercasing. -/
def find_dtmf_match (available_commands : List String) (digit : String) : Option String :=
  available_commands.find? (fun command => pyLower command == pyLower digit)

/-- IvrWorker.wait_for_dtmf (lines 819-829) on a finite digit input: loop
over received digits until one matches an available command; digits matching
no command are discarded and the wait continues.  Returns the matched command
and the unconsumed digits, or none when the input is exhausted while still
waiting. -/
def wait_for_dtmf (available_commands : List String) :
    List String → Option (String × List String)
  | [] => none
  | digit :: rest =>
    match find_dtmf_match available_commands digit with
    | some command => some (command, rest)
    | none => wait_for_dtmf available_commands rest

/-- IvrWorker._run (lines 714-794) restricted to terminal and DTMF message
nodes, with a fuel bound on the number of node visits (the DAG is traversed
strictly forward, so the node count bounds the visits).  One iteration:
look up the current node (line 717); a final node breaks the loop and the
finished event is set (lines 725-727, 794); a DTMF message node waits for a
matching digit (line 747), then follows the first link whose message equals
the matched command (lines 756-761), raising a fatal error when no link
matches (line 760). -/
def ivr_run (nodes : List (String × IvrNode)) :
    ℕ → String → List String → IvrOutcome
  | 0, cur, _ => IvrOutcome.running cur
  | fuel + 1, cur, digits =>
    match dag_lookup nodes cur with
    | none => IvrOutcome.fatalError cur
    | some IvrNode.terminal => IvrOutcome.finished
    | some (IvrNode.messageDtmf _ links) =>
      match wait_for_dtmf (links.map (fun l => l.message)) digits with
      | none => IvrOutcome.waitingAt cur
      | some (command, rest) =>
        match (links.filter (fun l => l.message == command)).head? with
        | none => IvrOutcome.fatalError cur
        | some link => ivr_run nodes fuel link.next rest

/-! ## Concrete example values used by witnesses and counterexamples -/

/-- The IVR DAG of the spec example: start node A is a DTMF message node with
a single edge labelled 1 to node B, and B is terminal. -/
def ivrExample : List (String × IvrNode) :=
  [("A", IvrNode.messageDtmf "press 1 for sales" [{ message := "1", next := "B" }]),
   ("B", IvrNode.terminal)]

/-- The 3-chunk playback of the spec example: the stop event is observed set
from iteration 1 on (after chunk 0 was dispatched) and the single dispatched
chunk is played. -/
def speechExample : SpeechParams :=
  { message := "abc",
    num_chunks := 3,
    seconds_per_chunk := 1,
    get_message_up_to := fun cutoff =>
      match cutoff with
      | none => "abc"
      | some seconds =>
        if seconds < 1 then "" else if seconds < 2 then "a"
        else if seconds < 3 then "ab" else "abc",
    stop_at_send := fun i => decide (1 ≤ i),
    num_played := 1 }

/-- A playback with two chunks, no stop and both chunks played, used by the
mute-trace witness. -/
def speechExampleUncut : SpeechParams :=
  { message := "hi",
    num_chunks := 2,
    seconds_per_chunk := 1,
    get_message_up_to := fun cutoff =>
      match cutoff with
      | none => "hi"
      | some seconds => if seconds < 1 then "" else if seconds < 2 then "h" else "hi",
    stop_at_send := fun _ => false,
    num_played := 2 }

/-- A conversation state used by witnesses: human already speaking, bot turn
open in the transcript, one pending interruptible event registered. -/
def convExample : ConvState :=
  { last_transcription := some "hello",
    last_transcription_time := some 10,
    has_associated_ignored_utterance := false,
    has_associated_unignored_utterance := false,
    human_backchannels_buffer := [],
    ignore_next_message := false,
    simulate_interrupt := false,
    interrupt_sensitivity := "normal",
    is_human_speaking := true,
    current_transcription_is_interrupt := false,
    initial_message_tracker_set := true,
    transcript := [{ text := "how can i help", sender_is_bot := true, is_final := false,
                     is_backchannel := false, is_end_of_turn := false }],
    interruptible_events := [{ is_interruptible := true, state := EvState.pending }],
    forwarded := [],
    broadcast_count := 0 }

/-- A queued, interruptible output item whose cancellation token was set
before the device dequeued it. -/
def outputItemExample : OutputItem :=
  { chunk := { state := ChunkState.queued, on_play_count := 0, on_interrupt_count := 0 },
    is_interruptible := true,
    interruption_event_set := true }

/-- A whitespace-only final transcription fragment. -/
def whitespaceTranscription : Transcription :=
  { message := "   ", is_final := true, is_interrupt := false, bot_was_in_medias_res := false }

/-! # Theorems -/

/-! ## C1: interrupt broadcast -/

/-- Closed form of the broadcast drain loop: every registered event that is
interruptible and still pending is transitioned to interrupted, every other
event is left unchanged, and the pending interruptible events are exactly the
ones counted. -/
theorem broadcast_drain_eq (l : List InterruptibleEvent) :
    broadcast_drain l =
      (l.map (fun e => if pending_interruptible e then { e with state := EvState.interrupted } else e),
       (l.filter pending_interruptible).length) := by
  induction l with
  | nil => rfl
  | cons e rest ih =>
    rcases e with ⟨b, s⟩
    cases b <;> cases s <;>
      simp [broadcast_drain, ih, is_interrupted_event, interrupt_event,
        pending_interruptible, List.filter_cons] <;>
      omega

/-- C1: a call to broadcast_interrupt transitions exactly the pending,
unconsumed, interruptible events of the shared registry to interrupted
(leaving all others unchanged) and returns true exactly when their number N
is positive; and every event created through the factory is registered into
the registry, as a pending event carrying the requested interruptible flag,
so no created event escapes the broadcast. -/
theorem c1_broadcast_interrupt_complete (registry : List InterruptibleEvent) :
    (broadcast_interrupt registry).1 =
        registry.map
          (fun e => if pending_interruptible e then { e with state := EvState.interrupted } else e)
    ∧ (broadcast_interrupt registry).2
        = decide (0 < (registry.filter pending_interruptible).length)
    ∧ (∀ reg b, (create_interruptible_event reg b).1
          = reg ++ [(create_interruptible_event reg b).2]
        ∧ (create_interruptible_event reg b).2
          = { is_interruptible := b, state := EvState.pending }) := by
  refine ⟨?_, ?_, fun reg b => ⟨rfl, rfl⟩⟩ <;>
    simp [broadcast_interrupt, broadcast_drain_eq]

/-! ## C2: agent-response completion trackers -/

/-- C2: for an agent-response event consumed by the filler-audio stage or the
synthesis-results stage, the completion tracker is set by the time the
process call returns: on the completed path it is set by the process body,
and on the cancelled path the cancellation protocol interrupts the event
first, which settles the tracker before the swallowed CancelledError ends
the call. -/
theorem c2_agent_response_tracker_always_set (item : AgentResponseEvent) (eot : Bool) :
    (filler_audio_process item false).tracker_is_set = true
    ∧ (synthesis_results_process item eot false).tracker_is_set = true
    ∧ (filler_audio_process (interrupt_agent_response_event item) true).tracker_is_set = true
    ∧ (synthesis_results_process (interrupt_agent_response_event item) eot true).tracker_is_set
        = true := by
  refine ⟨rfl, ?_, rfl, rfl⟩
  cases eot <;> rfl

/-! ## C3: chunks interrupted before dispatch never play -/

/-- C3: an audio chunk whose cancellation event is set before the output
device dequeues it transitions to interrupted, never to played; its
on-interrupt callback fires exactly once on that terminal transition and its
on-play callback never fires; and the run loop handles each queued item
exactly once. -/
theorem c3_interrupted_chunk_never_played (item : OutputItem)
    (hq : item.chunk.state = ChunkState.queued)
    (hn : item.chunk.on_interrupt_count = 0)
    (hi : item.is_interruptible = true)
    (hs : item.interruption_event_set = true) :
    (livekit_handle_item item).chunk.state = ChunkState.interrupted
    ∧ (livekit_handle_item item).chunk.state ≠ ChunkState.played
    ∧ (livekit_handle_item item).chunk.on_interrupt_count = 1
    ∧ (livekit_handle_item item).chunk.on_play_count = item.chunk.on_play_count
    ∧ livekit_run_loop [item] = [livekit_handle_item item] := by
  simp [livekit_handle_item, output_item_is_interrupted, hi, hs, hn, livekit_run_loop]

/-- Witness for C3 at a concrete queued interruptible item with its
cancellation event set. -/
theorem c3_witness :
    (livekit_handle_item outputItemExample).chunk.state = ChunkState.interrupted
    ∧ (livekit_handle_item outputItemExample).chunk.on_interrupt_count = 1 :=
  ⟨(c3_interrupted_chunk_never_played outputItemExample rfl rfl rfl rfl).1,
   (c3_interrupted_chunk_never_played outputItemExample rfl rfl rfl rfl).2.2.1⟩

/-! ## C4: backchannel classification -/

/-- C4 counterexample: at high sensitivity the classifier returns false for
the one-word utterance mhm even though its normalized text matches the
filler pattern list, so the claimed if-and-only-if characterization (word
count at most the threshold OR pattern match) is false as stated. -/
theorem c4_counterexample :
    is_transcription_backchannel "high" false "mhm" = false
    ∧ claimed_is_transcription_backchannel "high" false "mhm" = true :=
  ⟨rfl, rfl⟩

/-- C4 amended: the high-sensitivity non-empty check takes precedence and
returns false before the pattern branch can run; in all other cases the
classifier is exactly the claimed disjunction (word count at most the
sensitivity-dependent threshold OR normalized pattern match).  In
particular, mm-hm at normal sensitivity is a backchannel and stop at high
sensitivity is a real interruption. -/
theorem c4_amended_classifier :
    (∀ sens simulate message,
      is_transcription_backchannel sens simulate message =
        if sens == "high" && decide (1 ≤ (pyWords message).length) then false
        else claimed_is_transcription_backchannel sens simulate message)
    ∧ is_transcription_backchannel "normal" false "mm-hm" = true
    ∧ is_transcription_backchannel "high" false "stop" = false := by
  refine ⟨fun sens simulate message => ?_, rfl, rfl⟩
  unfold is_transcription_backchannel claimed_is_transcription_backchannel claimed_threshold
  by_cases hs : sens == "high"
  · by_cases hw : 1 ≤ (pyWords message).length
    · simp [hs, hw]
    · have hw0 : (pyWords message).length = 0 := by omega
      cases simulate <;>
        simp [hs, hw0, LOW_INTERRUPT_SENSITIVITY_BACKCHANNEL_UTTERANCE_LENGTH_THRESHOLD,
          LOWEST_INTERRUPT_SENSITIVITY_BACKCHANNEL_UTTERANCE_LENGTH_THRESHOLD]
  · rw [Bool.not_eq_true] at hs
    cases simulate
    · by_cases hT : (pyWords message).length ≤ 3 <;>
        simp [hs, hT, LOW_INTERRUPT_SENSITIVITY_BACKCHANNEL_UTTERANCE_LENGTH_THRESHOLD]
    · by_cases hT : (pyWords message).length ≤ 50 <;>
        simp [hs, hT, LOWEST_INTERRUPT_SENSITIVITY_BACKCHANNEL_UTTERANCE_LENGTH_THRESHOLD]

/-! ## C5 and C6: send_speech_to_output -/

/-- Closed form of iterating the on_play callback k times from seconds s and
text t: the elapsed seconds grow by k chunks and the text becomes the prefix
for the total elapsed time (unchanged when no chunk played). -/
theorem run_on_plays_eq (p : SpeechParams) :
    ∀ (k : ℕ) (s : ℚ) (t : String),
      run_on_plays p k (s, t)
        = (s + (k : ℚ) * p.seconds_per_chunk,
           if k = 0 then t
           else p.get_message_up_to (some (s + (k : ℚ) * p.seconds_per_chunk))) := by
  intro k
  induction k with
  | zero => intro s t; simp [run_on_plays]
  | succ n ih =>
    intro s t
    have harith : s + p.seconds_per_chunk + (n : ℚ) * p.seconds_per_chunk
        = s + ((n : ℚ) + 1) * p.seconds_per_chunk := by ring
    simp only [run_on_plays]
    rw [ih]
    cases n with
    | zero => simp
    | succ m =>
      rw [harith]
      simp [Nat.cast_add]

/-- C5: send_speech_to_output reports cut_off true exactly when the dispatch
loop stopped early because the stop event was set, or some dispatched chunk
ended interrupted; when cut_off is false the transcript message text is set
to the full message (get_message_up_to None) and the full message argument is
returned; when cut_off is true the transcript text equals the spoken
elapsed-time prefix and that text, with the flag, is the returned value.  The
hypotheses say the device plays a prefix of the dispatched chunks and that
the zero-seconds prefix is the initial (empty) transcript text. -/
theorem c5_cut_off_and_transcript (p : SpeechParams) (init : String)
    (hplayed : p.num_played ≤ sent_count p)
    (hzero : p.get_message_up_to (some 0) = init) :
    (send_speech_result p true init).cut_off
        = (decide (sent_count p < p.num_chunks) || decide (p.num_played < sent_count p))
    ∧ ((send_speech_result p true init).cut_off = false →
        (send_speech_result p true init).transcript_text = p.get_message_up_to none
        ∧ (send_speech_result p true init).message_sent = p.message)
    ∧ ((send_speech_result p true init).cut_off = true →
        (send_speech_result p true init).transcript_text
            = p.get_message_up_to (some ((p.num_played : ℚ) * p.seconds_per_chunk))
        ∧ (send_speech_result p true init).message_sent
            = (send_speech_result p true init).transcript_text)
    ∧ (send_speech_to_output p true init false none).2
        = Except.ok (send_speech_result p true init) := by
  have htext : (run_on_plays p p.num_played (0, init)).2
      = p.get_message_up_to (some ((p.num_played : ℚ) * p.seconds_per_chunk)) := by
    rw [run_on_plays_eq]
    cases hnp : p.num_played with
    | zero => simpa using hzero.symm
    | succ m => simp
  refine ⟨rfl, fun hc => ?_, fun hc => ?_, rfl⟩
  · have hb : (decide (sent_count p < p.num_chunks)
        || decide (p.num_played < sent_count p)) = false := hc
    constructor <;> simp [send_speech_result, hb]
  · have hb : (decide (sent_count p < p.num_chunks)
        || decide (p.num_played < sent_count p)) = true := hc
    constructor
    · simp [send_speech_result, hb, htext]
    · simp [send_speech_result, hb]

/-- Witness for C5 at the 3-chunk spec example with the stop event observed
after the first dispatch and one chunk played: cut_off is true and the
transcript text is the one-chunk prefix. -/
theorem c5_witness :
    (send_speech_result speechExample true "").cut_off = true
    ∧ (send_speech_result speechExample true "").transcript_text = "a" := by
  have h := c5_cut_off_and_transcript speechExample ""
    (by decide) (by norm_num [speechExample])
  have hc : (send_speech_result speechExample true "").cut_off = true := by
    rw [h.1]; decide
  refine ⟨hc, ?_⟩
  rw [(h.2.2.1 hc).1]
  norm_num [speechExample]

/-- C6 counterexample: a send_speech_to_output call with mute_during_speech
configured that is exited by a cancellation while waiting for the last
dispatched chunk leaves the transcriber muted, so the transcriber is NOT
unmuted on every exit path. -/
theorem c6_counterexample :
    (send_speech_to_output speechExampleUncut true "" true
        (some CancelPoint.duringLastWait)).1.muted_at_exit = true := rfl

/-- C6 amended: with mute_during_speech configured the transcriber is muted
at entry and unmuted on every NORMAL exit path; on an exit by cancellation or
exception raised at an await point of the chunk loop or of the last-chunk
wait, the unmute is skipped (there is no try/finally) and the transcriber
stays muted; without the configuration it is never muted. -/
theorem c6_amended_mute (p : SpeechParams) (tp : Bool) (init : String) :
    (∀ c : Option CancelPoint,
        (send_speech_to_output p tp init true c).1.muted_after_entry = true)
    ∧ (send_speech_to_output p tp init true none).1.muted_at_exit = false
    ∧ (∀ cp : CancelPoint,
        (send_speech_to_output p tp init true (some cp)).1.muted_at_exit = true)
    ∧ (∀ c : Option CancelPoint,
        (send_speech_to_output p tp init false c).1.muted_at_exit = false) := by
  refine ⟨fun c => ?_, rfl, fun cp => rfl, fun c => ?_⟩ <;> cases c <;> rfl

/-! ## C7: the filler-audio wait that never waits -/

/-- C7: the code bug at line 392.  wait_for_filler_audio_to_finish never
awaits the filler completion tracker, whatever the started event and the
in-flight filler event are, because it calls started_event.set() instead of
started_event.is_set() and negates the falsy None return value; at the
failing input (started event set, filler event in flight) the intended
behaviour per the claim and the class docstring is to await the tracker;
and the call even mutates an unset started event to set. -/
theorem c7_filler_wait_never_waits :
    (∀ se he, (wait_for_filler_audio_to_finish se he).2
        = FillerWaitOutcome.returned_without_waiting)
    ∧ (wait_for_filler_audio_to_finish (some { flag := true }) true).2
        = FillerWaitOutcome.returned_without_waiting
    ∧ (wait_for_filler_audio_to_finish_intended (some { flag := true }) true).2
        = FillerWaitOutcome.awaited_tracker
    ∧ (wait_for_filler_audio_to_finish (some { flag := false }) true).1
        = some { flag := true } := by
  refine ⟨fun se he => ?_, rfl, rfl, rfl⟩
  cases se <;> rfl

/-! ## C8: the IVR DTMF state machine -/

/-- A digit matching no available command is discarded and the wait
continues. -/
theorem wait_for_dtmf_cons_no_match (available : List String) (d : String)
    (rest : List String) (h : find_dtmf_match available d = none) :
    wait_for_dtmf available (d :: rest) = wait_for_dtmf available rest := by
  simp [wait_for_dtmf, h]

/-- C8: at a terminal node the machine finishes (the finished event is set);
at a DTMF message node a digit matching an edge label moves the cursor to the
matched edge target and the run continues there; a digit matching no edge
label is discarded, the current node unchanged, and the machine keeps
waiting on the remaining input; and a failed edge lookup for a recognized
command aborts the machine with a fatal error. -/
theorem c8_ivr_dtmf (nodes : List (String × IvrNode)) :
    (∀ fuel cur digits, dag_lookup nodes cur = some IvrNode.terminal →
        ivr_run nodes (fuel + 1) cur digits = IvrOutcome.finished)
    ∧ (∀ fuel cur m links d rest c l t,
        dag_lookup nodes cur = some (IvrNode.messageDtmf m links) →
        find_dtmf_match (links.map (fun lk => lk.message)) d = some c →
        links.filter (fun lk => lk.message == c) = l :: t →
        ivr_run nodes (fuel + 1) cur (d :: rest) = ivr_run nodes fuel l.next rest)
    ∧ (∀ fuel cur m links d rest,
        dag_lookup nodes cur = some (IvrNode.messageDtmf m links) →
        find_dtmf_match (links.map (fun lk => lk.message)) d = none →
        ivr_run nodes (fuel + 1) cur (d :: rest) = ivr_run nodes (fuel + 1) cur rest)
    ∧ (∀ fuel cur m links digits c rest,
        dag_lookup nodes cur = some (IvrNode.messageDtmf m links) →
        wait_for_dtmf (links.map (fun lk => lk.message)) digits = some (c, rest) →
        links.filter (fun lk => lk.message == c) = [] →
        ivr_run nodes (fuel + 1) cur digits = IvrOutcome.fatalError cur) := by
  refine ⟨?_, ?_, ?_, ?_⟩
  · intro fuel cur digits h
    simp [ivr_run, h]
  · intro fuel cur m links d rest c l t h1 h2 h3
    simp [ivr_run, h1, wait_for_dtmf, h2, h3]
  · intro fuel cur m links d rest h1 h2
    simp only [ivr_run, h1]
    rw [wait_for_dtmf_cons_no_match _ _ _ h2]
  · intro fuel cur m links digits c rest h1 h2 h3
    simp [ivr_run, h1, h2, h3]

/-- Witness for C8 at the spec example DAG (A: DTMF message node with edge
labelled 1 to B; B terminal): digit 1 transitions A to B and the machine
finishes; digit 9 leaves the machine at A still waiting. -/
theorem c8_witness :
    ivr_run ivrExample 2 "A" ["1"] = IvrOutcome.finished
    ∧ ivr_run ivrExample 2 "A" ["9"] = ivr_run ivrExample 2 "A" []
    ∧ ivr_run ivrExample 2 "A" [] = IvrOutcome.waitingAt "A" := by
  obtain ⟨hterm, hmove, hwait, hfatal⟩ := c8_ivr_dtmf ivrExample
  refine ⟨?_, ?_, by decide⟩
  · exact (hmove 1 "A" "press 1 for sales" [{ message := "1", next := "B" }] "1" [] "1"
      { message := "1", next := "B" } [] rfl rfl rfl).trans (hterm 0 "B" [] rfl)
  · exact hwait 1 "A" "press 1 for sales" [{ message := "1", next := "B" }] "9" [] rfl rfl

/-! ## C9: transcription dedup -/

/-- C9 counterexample: three fragments of identical text at times 0, 0.4 and
0.7 seconds.  The middle one is dropped without refreshing the stored stamp,
so the third is retained by the code (0.7 seconds elapsed since the last
RETAINED fragment) although the claim as stated says it is dropped (0.3
seconds elapsed since the immediately preceding fragment). -/
theorem c9_counterexample :
    dedup_run { last_transcription := none, last_transcription_time := none }
        [("x", 0), ("x", (2 : ℚ)/5), ("x", (7 : ℚ)/10)]
      = [("x", 0), ("x", (7 : ℚ)/10)]
    ∧ claimed_dedup_run none [("x", 0), ("x", (2 : ℚ)/5), ("x", (7 : ℚ)/10)]
      = [("x", 0)] := by
  constructor
  · norm_num [dedup_run, dedup_step, dedup_should_drop]
  · norm_num [claimed_dedup_run]

/-- Auxiliary induction for the no-duplicate consequent of C9: when no later
fragment repeats the stored fragment within half a second and no two
fragments of equal text are within half a second of each other, the dedup
gate retains everything. -/
theorem dedup_run_no_dup_aux (l : List (String × ℚ)) :
    ∀ st : DedupState,
      (∀ f ∈ l, ∀ p pt, st.last_transcription = some p →
        st.last_transcription_time = some pt → p = f.1 → 1/2 ≤ f.2 - pt) →
      l.Pairwise (fun a b => a.1 = b.1 → 1/2 ≤ b.2 - a.2) →
      dedup_run st l = l := by
  induction l with
  | nil => intro st _ _; rfl
  | cons f fs ih =>
    intro st hst hpair
    rcases List.pairwise_cons.mp hpair with ⟨hhead, htail⟩
    have hdrop : dedup_should_drop st f.1 f.2 = false := by
      rcases st with ⟨_ | p, _ | pt⟩
      · rfl
      · rfl
      · rfl
      · simp only [dedup_should_drop]
        by_cases hp : p = f.1
        · have hle := hst f (List.mem_cons_self f fs) p pt rfl rfl hp
          simp [hp]
          linarith
        · simp [hp]
    have hrun : dedup_run st (f :: fs) = f :: dedup_run ⟨some f.1, some f.2⟩ fs := by
      simp [dedup_run, dedup_step, hdrop]
    rw [hrun, ih ⟨some f.1, some f.2⟩ ?_ htail]
    intro g hg p pt hp hpt hpe
    have hfp : f.1 = p := by simpa using hp
    have hft : f.2 = pt := by simpa using hpt
    subst hfp
    subst hft
    exact hhead g hg hpe

/-- C9 amended: a fragment is dropped by the dedup gate exactly when its text
equals the text of the most recently RETAINED fragment and under half a
second elapsed since that retained fragment (dropped fragments do not refresh
the stored fragment or stamp); a retained fragment becomes the new stored
fragment; and consequently, in a sequence of fragments in which no two
fragments of equal text lie within half a second of each other, every
fragment passes the dedup gate exactly once. -/
theorem c9_amended_dedup :
    (∀ st message now, (dedup_step st message now).2 = dedup_should_drop st message now)
    ∧ (∀ (prev : String) (prev_time : ℚ) message now,
        dedup_should_drop ⟨some prev, some prev_time⟩ message now
          = (prev == message && decide (now - prev_time < 1/2)))
    ∧ (∀ (message : String) (now : ℚ) (t : Option ℚ),
        dedup_should_drop ⟨none, t⟩ message now = false)
    ∧ (∀ st message now,
        (dedup_step st message now).2 = false →
          (dedup_step st message now).1 = ⟨some message, some now⟩)
    ∧ (∀ st message now,
        (dedup_step st message now).2 = true → (dedup_step st message now).1 = st)
    ∧ (∀ l : List (String × ℚ),
        l.Pairwise (fun a b => a.1 = b.1 → 1/2 ≤ b.2 - a.2) →
        dedup_run ⟨none, none⟩ l = l) := by
  refine ⟨?_, fun prev prev_time message now => rfl, ?_, ?_, ?_, ?_⟩
  · intro st message now
    simp only [dedup_step]
    split
    · next h => exact h.symm
    · next h => exact (Bool.eq_false_iff.mpr h).symm
  · intro message now t
    cases t <;> rfl
  · intro st message now h
    simp only [dedup_step] at h ⊢
    split at h
    · cases h
    · rw [if_neg (by assumption)]
  · intro st message now h
    simp only [dedup_step] at h ⊢
    split at h
    · rw [if_pos (by assumption)]
    · cases h
  · intro l hpair
    refine dedup_run_no_dup_aux l _ ?_ hpair
    intro f hf p pt hp hpt hpe
    cases hp

/-- Witness for C9 amended at a concrete two-fragment sequence with equal
texts a full second apart: both fragments are retained. -/
theorem c9_witness :
    dedup_run { last_transcription := none, last_transcription_time := none }
      [("a", 0), ("a", 1)] = [("a", 0), ("a", 1)] :=
  c9_amended_dedup.2.2.2.2.2 [("a", 0), ("a", 1)]
    (by norm_num [List.pairwise_cons])

/-! ## C10: empty transcriptions dropped before everything else -/

/-- C10: a transcription fragment whose text is empty or whitespace-only is
dropped by the transcription stage before any suppression, interruption or
turn-taking logic runs: the backchannel buffer, the broadcast count, the
is_human_speaking flag, the forwarded log, the transcript, the event registry,
the interrupt flag and the suppression flags are all unchanged. -/
theorem c10_empty_transcription_dropped (st : ConvState) (t : Transcription)
    (now : ℚ) (h : pyStrip t.message = "") :
    (transcriptions_process st t now).human_backchannels_buffer
        = st.human_backchannels_buffer
    ∧ (transcriptions_process st t now).broadcast_count = st.broadcast_count
    ∧ (transcriptions_process st t now).is_human_speaking = st.is_human_speaking
    ∧ (transcriptions_process st t now).forwarded = st.forwarded
    ∧ (transcriptions_process st t now).transcript = st.transcript
    ∧ (transcriptions_process st t now).interruptible_events = st.interruptible_events
    ∧ (transcriptions_process st t now).current_transcription_is_interrupt
        = st.current_transcription_is_interrupt
    ∧ (transcriptions_process st t now).has_associated_ignored_utterance
        = st.has_associated_ignored_utterance := by
  unfold transcriptions_process
  by_cases hd : dedup_should_drop
      { last_transcription := st.last_transcription,
        last_transcription_time := st.last_transcription_time } t.message now
  · simp [hd]
  · simp [hd, h]

/-- Witness for C10: a whitespace-only final fragment arriving at a state
with the human speaking and the bot mid-utterance changes none of the
observable turn-taking state. -/
theorem c10_witness :
    (transcriptions_process convExample whitespaceTranscription 20).forwarded
        = convExample.forwarded
    ∧ (transcriptions_process convExample whitespaceTranscription 20).broadcast_count
        = convExample.broadcast_count :=
  ⟨(c10_empty_transcription_dropped convExample whitespaceTranscription 20 (by decide)).2.2.2.1,
   (c10_empty_transcription_dropped convExample whitespaceTranscription 20 (by decide)).2.1⟩

end VocodeSpec
